import Mathlib

/-!
# Verification of the client runtime (web/src/lib)

A shallow embedding, in Lean 4, of the core "client runtime" of the
repository: the streaming-response client (`web/src/lib/sse.ts`), the
conversation state manager and ingestion queue manager
(`web/src/lib/storage.ts`), and the API-client header construction
(`web/src/lib/api.ts`).  JavaScript strings are modelled as Lean
`String`s (operated on through their character lists), JS numbers used
for progress arithmetic as `ℚ` with explicit `Math.round`, and the
asynchronous environment (fetch outcomes, generated ids, clock reads)
as explicit parameters.
-/

namespace Spec2Proof

/-! ## JavaScript string primitives

The SSE parser uses `String.prototype.split('\n')`, `startsWith`,
`slice(n)` / `slice(0, n)`, `length` and `Array.prototype.indexOf`.
We model them over the character list of a Lean `String`; the payloads
involved are ASCII so JS UTF-16 code units coincide with characters. -/

/-- `split` of a character list on the newline character, JS semantics:
`"".split('\n') = [""]`, a trailing newline yields a trailing `""`. -/
def splitNlChars : List Char → List (List Char)
  | [] => [[]]
  | c :: rest =>
    if c = '\n' then [] :: splitNlChars rest
    else
      match splitNlChars rest with
      | [] => [[c]]
      | h :: t => (c :: h) :: t

/-- JS `s.split('\n')`. -/
def jsSplitNl (s : String) : List String :=
  (splitNlChars s.data).map String.mk

/-- JS `s.startsWith(p)`. -/
def jsStartsWith (s p : String) : Bool :=
  p.data.isPrefixOf s.data

/-- JS `s.slice(n)` (drop the first `n` code units). -/
def jsDrop (s : String) (n : Nat) : String :=
  String.mk (s.data.drop n)

/-- JS `s.slice(0, n)` (keep the first `n` code units). -/
def jsTake (s : String) (n : Nat) : String :=
  String.mk (s.data.take n)

/-- JS `s.length`. -/
def jsLength (s : String) : Nat :=
  s.data.length

/-! ## The SSE chunk parser (`SSEClient.connect`, read loop)

Faithful to `sse.ts` lines 67–96: the decoded chunk is appended to the
carried-over `buffer`, the result is split on `'\n'`, the last element
is popped back into `buffer`, and each remaining line beginning with
`"event: "` looks up `lines[lines.indexOf(line) + 1]` as its candidate
`"data: "` line.  A pair that reaches the dispatch point is recorded as
`(eventType, rawData)`; in the source it is then routed to a callback
(`JSON.parse` success → `handleEvent`, failure → `onMessage` for the
`message` kind), a deterministic function of the recorded pair. -/

/-- One processed pair at the dispatch point of the read loop:
event type (after `line.slice(7)`) and raw data (after
`dataLine.slice(6)`). -/
def dispatchesOf (lines : List String) : List (String × String) :=
  lines.foldl
    (fun acc line =>
      if jsStartsWith line "event: " then
        let eventType := jsDrop line 7
        let idx := lines.findIdx (fun l => l == line)
        match lines.get? (idx + 1) with
        | some dataLine =>
          if jsStartsWith dataLine "data: " then
            acc ++ [(eventType, jsDrop dataLine 6)]
          else acc
        | none => acc
      else acc)
    []

/-- One iteration of the read loop on a decoded chunk: returns the new
carried-over buffer and the pairs dispatched while processing it. -/
def processChunk (buffer chunk : String) : String × List (String × String) :=
  let parts := jsSplitNl (buffer ++ chunk)
  let newBuf := (parts.getLast?).getD ""
  let lines := parts.dropLast
  (newBuf, dispatchesOf lines)

/-- Feed a sequence of decoded chunks through the read loop, starting
from an empty buffer, collecting every dispatched pair in order.  When
the transport reports completion the loop breaks and any leftover
buffer is discarded, as in the source. -/
def chunkDispatches (chunks : List String) : List (String × String) :=
  (chunks.foldl
    (fun st c =>
      let step := processChunk st.1 c
      (step.1, st.2 ++ step.2))
    ("", [])).2

/-! ## The SSE connect / retry lifecycle (`SSEClient.connect`, `disconnect`)

`connect` first calls `disconnect()` (which aborts any previous
controller and sets `retryCount = 0`), then performs a `fetch`.  The
environment's answer to one `fetch` attempt (including the subsequent
read loop) is modelled as a `FetchOutcome`: an abort (the promise
rejects with `AbortError`), a connection-level failure (any other
rejection, including a non-ok status thrown at line 54), or a
successful stream delivering a list of decoded chunks followed by
transport completion.  Callback invocations are recorded in order as
`Cb` values; `Cb.dispatch ty data` stands for the pair handed to
`JSON.parse`/`handleEvent` at the dispatch point (a deterministic
function of the pair selects which of the data callbacks fires). -/

/-- The environment's result for one `fetch` attempt of `connect`. -/
inductive FetchOutcome where
  /-- The attempt rejects with an `AbortError` (caller-initiated
  cancellation via `disconnect`). -/
  | abort
  /-- The attempt rejects with a connection-level (non-abort) error
  carrying message `msg`. -/
  | failure (msg : String)
  /-- The attempt succeeds; the body delivers `chunks` and then
  reports completion. -/
  | stream (chunks : List String)
  /-- The attempt succeeds and delivers `chunks`, but the next read
  rejects with an `AbortError` (cancellation during an active
  stream). -/
  | streamAbort (chunks : List String)
deriving DecidableEq, Repr

/-- A recorded callback invocation of `SSECallbacks`. -/
inductive Cb where
  /-- `callbacks.onOpen?.()` -/
  | onOpen
  /-- `callbacks.onClose?.()` -/
  | onClose
  /-- `callbacks.onError?.(msg)` from the retry-exhaustion branch. -/
  | onError (msg : String)
  /-- An `(eventType, data)` pair reaching the dispatch point of the
  read loop (routed through `JSON.parse` / `handleEvent`). -/
  | dispatch (eventType data : String)
deriving DecidableEq, Repr

/-- `maxRetries` field of `SSEClient`. -/
def maxRetries : Nat := 3

/-- `disconnect()`: aborts and clears the controller and resets the
instance field `retryCount` to `0`.  Only the retry counter is
modelled; the controller's effect is the `FetchOutcome.abort` outcome
of the in-flight attempt. -/
def disconnect (_retryCount : Nat) : Nat := 0

/-- Result of running `connect` against a list of attempt outcomes:
the callback invocations emitted, whether a further attempt is still
in flight or scheduled once the supplied outcomes are exhausted, and
the final value of the `retryCount` field. -/
structure ConnectResult where
  events : List Cb
  attemptPending : Bool
  retryCount : Nat
deriving DecidableEq, Repr

/-- One in-flight attempt of `connect`, with current `retryCount`
field `rc`, consuming the environment's outcomes one attempt at a
time.  On a connection-level failure with `rc < maxRetries` the source
increments `retryCount` and schedules `this.connect(query, callbacks)`
— whose first statement `this.disconnect()` resets `retryCount` to
`0` — so the recursive call re-enters with `disconnect (rc + 1)`. -/
def connectAttempt : Nat → List FetchOutcome → ConnectResult
  | rc, [] => ⟨[], true, rc⟩
  | rc, outcome :: rest =>
    match outcome with
    | .abort => ⟨[.onClose], false, rc⟩
    | .stream chunks =>
      ⟨.onOpen :: (chunkDispatches chunks).map (fun p => .dispatch p.1 p.2)
          ++ [.onClose], false, rc⟩
    | .streamAbort chunks =>
      ⟨.onOpen :: (chunkDispatches chunks).map (fun p => .dispatch p.1 p.2)
          ++ [.onClose], false, rc⟩
    | .failure msg =>
      if rc < maxRetries then
        connectAttempt (disconnect (rc + 1)) rest
      else
        ⟨[.onError msg, .onClose], false, rc⟩

/-- A top-level `connect(query, callbacks)` call on a client whose
`retryCount` field currently holds `rc`: it first runs
`disconnect()`, then starts the first attempt. -/
def connect (rc : Nat) (outcomes : List FetchOutcome) : ConnectResult :=
  connectAttempt (disconnect rc) outcomes

/-! ## The conversation state manager (`storage.ts`, `useChat`)

`Message` and `Conversation` are embedded with their fields; the
loosely-typed `citations` / `retrievalDebug` payloads are opaque
(`String`) since no claim inspects them.  Id generation
(`msg_${Date.now()}_${random}`) and clock reads (`Date.now()`) come
from the environment and are passed as explicit parameters.  A
`Partial<Message>` is a record of optional fields; the JS spread
`{ ...msg, ...updates }` keeps a field unless the update carries
it. -/

/-- `Message.role`. -/
inductive Role where
  | user
  | assistant
deriving DecidableEq, Repr

/-- A chat `Message` (`storage.ts`). -/
structure Message where
  id : String
  role : Role
  content : String
  timestamp : Nat
  citations : Option String := none
  retrievalDebug : Option String := none
  isStreaming : Option Bool := none
  error : Option String := none
deriving DecidableEq, Repr

/-- `Omit<Message, 'id' | 'timestamp'>`: the caller-supplied part of a
message handed to `addMessage`. -/
structure MessageInit where
  role : Role
  content : String
  citations : Option String := none
  retrievalDebug : Option String := none
  isStreaming : Option Bool := none
  error : Option String := none
deriving DecidableEq, Repr

/-- `Partial<Message>`: an update record; `none` means the key is
absent from the update object. -/
structure MessageUpdate where
  id : Option String := none
  role : Option Role := none
  content : Option String := none
  timestamp : Option Nat := none
  citations : Option (Option String) := none
  retrievalDebug : Option (Option String) := none
  isStreaming : Option (Option Bool) := none
  error : Option (Option String) := none
deriving DecidableEq, Repr

/-- JS spread `{ ...msg, ...updates }`. -/
def mergeMessage (msg : Message) (u : MessageUpdate) : Message where
  id := u.id.getD msg.id
  role := u.role.getD msg.role
  content := u.content.getD msg.content
  timestamp := u.timestamp.getD msg.timestamp
  citations := u.citations.getD msg.citations
  retrievalDebug := u.retrievalDebug.getD msg.retrievalDebug
  isStreaming := u.isStreaming.getD msg.isStreaming
  error := u.error.getD msg.error

/-- A `Conversation` (`storage.ts`). -/
structure Conversation where
  id : String
  title : String
  messages : List Message
  createdAt : Nat
  updatedAt : Nat
deriving DecidableEq, Repr

/-- The slice of `ChatState` the claims touch. -/
structure ChatState where
  conversations : List Conversation
  currentConversationId : Option String := none
deriving DecidableEq, Repr

/-- `getConversation(id)`: first conversation with the given id. -/
def getConversation (s : ChatState) (id : String) : Option Conversation :=
  s.conversations.find? (fun conv => conv.id == id)

/-- The default title literal used by `createConversation`. -/
def defaultTitle : String := "New Conversation"

/-- The one-time title derivation inside `addMessage`:
`message.content.slice(0, 50) + (message.content.length > 50 ? '...' : '')`. -/
def deriveTitle (content : String) : String :=
  jsTake content 50 ++ (if 50 < jsLength content then "..." else "")

/-- The `newMessage` object built inside `addMessage`:
`{ ...message, id: freshId, timestamp: now }`. -/
def mkMessage (message : MessageInit) (freshId : String) (now : Nat) : Message where
  id := freshId
  role := message.role
  content := message.content
  timestamp := now
  citations := message.citations
  retrievalDebug := message.retrievalDebug
  isStreaming := message.isStreaming
  error := message.error

/-- The arrow function mapped over `state.conversations` by
`addMessage`: on the matching conversation it appends the new
message, bumps `updatedAt` and applies the one-time title rule;
every other conversation is returned unchanged. -/
def applyAddMessage (conversationId : String) (message : MessageInit)
    (freshId : String) (now : Nat) (conv : Conversation) : Conversation :=
  if conv.id == conversationId then
    { conv with
        messages := conv.messages ++ [mkMessage message freshId now],
        updatedAt := now,
        title :=
          if conv.title == defaultTitle && message.role == Role.user then
            deriveTitle message.content
          else conv.title }
  else conv

/-- `addMessage(conversationId, message)` (`storage.ts` 199–220).
`freshId` is the generated `msg_…` id and `now` the `Date.now()`
reading; the second component is the JS return value of the action
(the function body has no `return`, so it is `undefined`, i.e.
`none`). -/
def addMessage (s : ChatState) (conversationId : String) (message : MessageInit)
    (freshId : String) (now : Nat) : ChatState × Option String :=
  ({ s with
      conversations :=
        s.conversations.map (applyAddMessage conversationId message freshId now) },
   none)

/-- The arrow function mapped over `state.conversations` by
`updateMessage`: on the matching conversation it merges the update
into the matching message (by id) and bumps `updatedAt`; every other
conversation is returned unchanged. -/
def applyUpdateMessage (conversationId messageId : String)
    (updates : MessageUpdate) (now : Nat) (conv : Conversation) : Conversation :=
  if conv.id == conversationId then
    { conv with
        messages := conv.messages.map (fun msg =>
          if msg.id == messageId then mergeMessage msg updates else msg),
        updatedAt := now }
  else conv

/-- `updateMessage(conversationId, messageId, updates)`
(`storage.ts` 222–238); `now` is the `Date.now()` reading used for
`updatedAt`. -/
def updateMessage (s : ChatState) (conversationId messageId : String)
    (updates : MessageUpdate) (now : Nat) : ChatState :=
  { s with
      conversations :=
        s.conversations.map (applyUpdateMessage conversationId messageId updates now) }

/-! ## The ingestion queue manager (`storage.ts`, `useIngest`)

`progress` is a JS number; it is modelled as `ℚ`, with
`Math.round` as `jsRound`.  The network result of one
`apiClient.ingestUrl` call is an environment parameter
(`UploadOutcome`): the resolved `IngestResponse` or the rejection's
message after `error instanceof Error ? error.message : 'Unknown
error'`. -/

/-- One entry of `IngestResponse.ingested`. -/
structure IngestedDoc where
  filename : String
  doc_id : String
  chunks : Nat
  source : String
deriving DecidableEq, Repr

/-- `IngestResponse` (`api.ts`). -/
structure IngestResponse where
  ingested : List IngestedDoc
  skipped : List String
  errors : List String
deriving DecidableEq, Repr

/-- `IngestItem.type`. -/
inductive IngestKind where
  | file
  | url
deriving DecidableEq, Repr

/-- `IngestItem.status`. -/
inductive IngestStatus where
  | pending
  | uploading
  | success
  | error
deriving DecidableEq, Repr

/-- An `IngestItem` (`storage.ts`). -/
structure IngestItem where
  id : String
  name : String
  type : IngestKind
  size : Option Nat := none
  status : IngestStatus
  progress : ℚ
  result : Option IngestResponse := none
  error : Option String := none
deriving DecidableEq, Repr

/-- The resolution of the one awaited network call of `uploadItem`'s
url branch. -/
inductive UploadOutcome where
  /-- `apiClient.ingestUrl(item.name)` resolves with `r`. -/
  | ok (r : IngestResponse)
  /-- The call rejects; `msg` is the extracted error message. -/
  | err (msg : String)
deriving DecidableEq, Repr

/-- `Math.round` on a (non-negative) rational: `⌊q + 1/2⌋`. -/
def jsRound (q : ℚ) : ℤ := ⌊q + 1 / 2⌋

/-- The result synthesized by the simulated file upload
(`storage.ts` 391–395). -/
def fileUploadResult (name : String) : IngestResponse where
  ingested := [{ filename := name, doc_id := name, chunks := 1, source := name }]
  skipped := []
  errors := []

/-- The arrow function of the first `set` of `uploadItem`: the
matching item becomes `uploading` at progress 0. -/
def markUploading (id : String) (it : IngestItem) : IngestItem :=
  if it.id == id then { it with status := IngestStatus.uploading, progress := 0 }
  else it

/-- The arrow function of the success `set` of `uploadItem`: the
matching item becomes `success` at progress 100 with the stored
result. -/
def markSuccess (id : String) (r : IngestResponse) (it : IngestItem) : IngestItem :=
  if it.id == id then
    { it with status := IngestStatus.success, progress := 100, result := some r }
  else it

/-- The arrow function of the catch `set` of `uploadItem`: the
matching item becomes `error` at progress 0 with the captured
message. -/
def markError (id msg : String) (it : IngestItem) : IngestItem :=
  if it.id == id then
    { it with status := IngestStatus.error, progress := 0, error := some msg }
  else it

/-- `uploadItem(id)` (`storage.ts` 363–424), run to its terminal
state update.  A file item's branch only awaits a timer and cannot
reject, so `outcome` is consulted only by the url branch. -/
def uploadItem (items : List IngestItem) (id : String)
    (outcome : UploadOutcome) : List IngestItem :=
  match items.find? (fun it => it.id == id) with
  | none => items
  | some item =>
    if item.status != IngestStatus.pending then items
    else
      let uploading := items.map (markUploading id)
      match item.type, outcome with
      | .file, _ => uploading.map (markSuccess id (fileUploadResult item.name))
      | .url, .ok r => uploading.map (markSuccess id r)
      | .url, .err msg => uploading.map (markError id msg)

/-- The arrow function of the reset `set` of `retryItem`: the
matching item returns to `pending` at progress 0 with `error`
cleared. -/
def resetItem (id : String) (it : IngestItem) : IngestItem :=
  if it.id == id then
    { it with status := IngestStatus.pending, progress := 0, error := none }
  else it

/-- The reset applied by `retryItem` before re-uploading
(`storage.ts` 433–439). -/
def resetToPending (items : List IngestItem) (id : String) : List IngestItem :=
  items.map (resetItem id)

/-- `retryItem(id)` (`storage.ts` 426–443): a guard, the reset, then
`uploadItem`. -/
def retryItem (items : List IngestItem) (id : String)
    (outcome : UploadOutcome) : List IngestItem :=
  match items.find? (fun it => it.id == id) with
  | none => items
  | some item =>
    if item.status != IngestStatus.error then items
    else uploadItem (resetToPending items id) id outcome

/-- `getTotalProgress()` (`storage.ts` 460–466). -/
def getTotalProgress (items : List IngestItem) : ℤ :=
  if items.length = 0 then 0
  else jsRound ((items.map (fun it => it.progress)).sum / (items.length : ℚ))

/-! ## API-key headers (`api.ts`, `sse.ts`)

`settings.apiKey` is a JS string; the unconfigured state (absent or
empty) is the falsy `""`, which is exactly what `if (apiKey)` and
`apiKey || 'changeme'` test. -/

/-- `ApiClient.getHeaders()` (`api.ts` 70–80), used by every JSON API
request (`query`, `config`, analytics, …). -/
def getHeaders (apiKey : String) : List (String × String) :=
  [("Content-Type", "application/json"),
   ("x-api-key", if apiKey == "" then "changeme" else apiKey)]

/-- The headers of the streaming request (`sse.ts` 35–42). -/
def sseConnectHeaders (apiKey : String) : List (String × String) :=
  [("Accept", "text/event-stream"), ("Cache-Control", "no-cache")]
    ++ (if apiKey == "" then [] else [("x-api-key", apiKey)])

/-- The headers of `ApiClient.ingest` (`api.ts` 125–129). -/
def ingestHeaders (apiKey : String) : List (String × String) :=
  if apiKey == "" then [] else [("x-api-key", apiKey)]

/-! ## Auxiliary predicates and concrete fixtures -/

/-- Whether a recorded callback is the connection-failure error
callback. -/
def isErrorCb : Cb → Bool
  | .onError _ => true
  | _ => false

/-- A fresh conversation, as produced by `createConversation()` with
the default title. -/
def conv0 : Conversation where
  id := "c1"
  title := "New Conversation"
  messages := []
  createdAt := 1
  updatedAt := 1

/-- A chat state holding only `conv0`. -/
def chatS0 : ChatState where
  conversations := [conv0]
  currentConversationId := some "c1"

/-- A 51-character user message. -/
def init0 : MessageInit where
  role := Role.user
  content := String.mk (List.replicate 51 'a')

/-- A message already stored in a conversation. -/
def msg0 : Message where
  id := "m0"
  role := Role.assistant
  content := "x"
  timestamp := 2

/-- A conversation with a non-default title holding `msg0`. -/
def conv1 : Conversation where
  id := "c9"
  title := "T"
  messages := [msg0]
  createdAt := 1
  updatedAt := 5

/-- A chat state holding only `conv1`. -/
def chatS1 : ChatState where
  conversations := [conv1]

/-- A terminal `success` ingest item at progress 100. -/
def itemSuccess : IngestItem where
  id := "i1"
  name := "a.txt"
  type := IngestKind.file
  status := IngestStatus.success
  progress := 100

/-- A `pending` ingest item at progress 0. -/
def itemP : IngestItem where
  id := "i2"
  name := "https://x"
  type := IngestKind.url
  status := IngestStatus.pending
  progress := 0

/-- A failed url ingest item. -/
def itemErr : IngestItem where
  id := "e1"
  name := "https://y"
  type := IngestKind.url
  status := IngestStatus.error
  progress := 0
  error := some "boom"

/-- A `pending` file ingest item. -/
def itemFile : IngestItem where
  id := "f1"
  name := "notes.pdf"
  type := IngestKind.file
  size := some 10
  status := IngestStatus.pending
  progress := 0

/-! ## Helper lemmas -/

/-- `find?` commutes with mapping a function that does not change the
predicate's verdict on any element. -/
theorem find?_map_pres {α : Type} (g : α → α) (p : α → Bool)
    (hg : ∀ a, p (g a) = p a) (l : List α) :
    (l.map g).find? p = (l.find? p).map g := by
  induction l with
  | nil => rfl
  | cons a t ih =>
    cases h : p a with
    | true =>
      rw [List.map_cons, List.find?_cons_of_pos _ (by rw [hg a, h]),
        List.find?_cons_of_pos _ h, Option.map_some']
    | false =>
      rw [List.map_cons, List.find?_cons_of_neg _ (by simp [hg a, h]),
        List.find?_cons_of_neg _ (by simp [h]), ih]

/-- Mapping a function that fixes every member is the identity. -/
theorem map_eq_self_of_fix {α : Type} (g : α → α) (l : List α)
    (h : ∀ a ∈ l, g a = a) : l.map g = l := by
  induction l with
  | nil => rfl
  | cons a t ih =>
    rw [List.map_cons, h a (by simp), ih (fun b hb => h b (by simp [hb]))]

/-- JS string length is additive under concatenation. -/
theorem jsLength_append (a b : String) :
    jsLength (a ++ b) = jsLength a + jsLength b := by
  simp [jsLength, String.data_append]

/-- The length of a `slice(0, n)` prefix. -/
theorem jsLength_jsTake (s : String) (n : Nat) :
    jsLength (jsTake s n) = min n (jsLength s) := by
  simp [jsLength, jsTake]

/-- `map` only depends on the function's values on members. -/
theorem map_congr_mem {α β : Type} (f g : α → β) (l : List α)
    (h : ∀ a ∈ l, f a = g a) : l.map f = l.map g := by
  induction l with
  | nil => rfl
  | cons a t ih =>
    rw [List.map_cons, List.map_cons, h a (by simp),
      ih (fun b hb => h b (by simp [hb]))]

/-- The `onClose` invocation at the end of a successful (or
stream-aborted) read is the only one in its event list when the
dispatched prefix contains none. -/
theorem count_close_once (l : List Cb) (h : Cb.onClose ∉ l) :
    (Cb.onOpen :: (l ++ [Cb.onClose])).count Cb.onClose = 1 := by
  rw [List.count_cons, List.count_append]
  simp [List.count_eq_zero.mpr h]

/-- `applyAddMessage` never changes a conversation's id. -/
theorem applyAddMessage_id (cid : String) (m : MessageInit) (fid : String)
    (now : Nat) (conv : Conversation) :
    (applyAddMessage cid m fid now conv).id = conv.id := by
  unfold applyAddMessage
  split <;> rfl

/-- `applyUpdateMessage` never changes a conversation's id. -/
theorem applyUpdateMessage_id (cid mid : String) (u : MessageUpdate)
    (now : Nat) (conv : Conversation) :
    (applyUpdateMessage cid mid u now conv).id = conv.id := by
  unfold applyUpdateMessage
  split <;> rfl

/-- Looking a conversation up after `addMessage` is looking it up
before and applying the per-conversation update. -/
theorem getConversation_addMessage (s : ChatState) (cid qid : String)
    (init : MessageInit) (fid : String) (now : Nat) :
    getConversation ((addMessage s cid init fid now).1) qid
      = (getConversation s qid).map (applyAddMessage cid init fid now) :=
  find?_map_pres _ _ (fun a => by simp only [applyAddMessage_id]) _

/-- Looking a conversation up after `updateMessage` is looking it up
before and applying the per-conversation update. -/
theorem getConversation_updateMessage (s : ChatState) (cid mid qid : String)
    (u : MessageUpdate) (now : Nat) :
    getConversation (updateMessage s cid mid u now) qid
      = (getConversation s qid).map (applyUpdateMessage cid mid u now) :=
  find?_map_pres _ _ (fun a => by simp only [applyUpdateMessage_id]) _

/-- `markUploading` never changes an item's id. -/
theorem markUploading_id (id : String) (it : IngestItem) :
    (markUploading id it).id = it.id := by
  unfold markUploading
  split <;> rfl

/-- `markSuccess` never changes an item's id. -/
theorem markSuccess_id (id : String) (r : IngestResponse) (it : IngestItem) :
    (markSuccess id r it).id = it.id := by
  unfold markSuccess
  split <;> rfl

/-- `markError` never changes an item's id. -/
theorem markError_id (id msg : String) (it : IngestItem) :
    (markError id msg it).id = it.id := by
  unfold markError
  split <;> rfl

/-- `resetItem` never changes an item's id. -/
theorem resetItem_id (id : String) (it : IngestItem) :
    (resetItem id it).id = it.id := by
  unfold resetItem
  split <;> rfl

/-! ## The claims -/

/-- C1: the spec claims that 3 consecutive connection-level failures
surface exactly one error callback and one close callback with no
further retry.  In the source, every scheduled retry re-enters
`connect`, whose first statement `disconnect()` resets `retryCount`
to `0`; the guard `retryCount < maxRetries` therefore always holds,
the exhaustion branch is unreachable, and after any number of
consecutive failures no callback at all has fired while a further
attempt is always pending. -/
theorem C1_retry_counter_reset_never_exhausts (rc n : Nat) (msg : String) :
    connect rc (List.replicate n (FetchOutcome.failure msg)) =
      ⟨[], true, 0⟩ := by
  have key : ∀ m : Nat,
      connectAttempt 0 (List.replicate m (FetchOutcome.failure msg)) = ⟨[], true, 0⟩ := by
    intro m
    induction m with
    | zero => rfl
    | succ k ih =>
      rw [List.replicate_succ]
      simpa [connectAttempt, maxRetries, disconnect] using ih
  simpa [connect, disconnect] using key n

/-- C2: the spec claims chunk-boundary invariance of the stream
parser.  Splitting the same byte stream between the `event:` line and
its `data:` line makes the parser dispatch nothing, while the unsplit
stream dispatches the `message` event (whose raw payload `hi` fails
`JSON.parse` and is routed to `onMessage` as raw text): the `data:`
lookahead `lines[lines.indexOf(line) + 1]` only sees the lines of the
current chunk, so a pair crossing a chunk boundary is dropped. -/
theorem C2_chunk_split_loses_events :
    ("event: message\n" ++ "data: hi\n" : String) = "event: message\ndata: hi\n"
    ∧ chunkDispatches ["event: message\ndata: hi\n"] = [("message", "hi")]
    ∧ chunkDispatches ["event: message\n", "data: hi\n"] = [] :=
  ⟨by decide, by decide, by decide⟩

/-- C6: caller-initiated cancellation (the in-flight attempt rejects
with `AbortError`, whether during the initial fetch or during an
active stream's read loop) fires only the close callback: exactly one
`onClose`, no `onError`, no retry scheduled; and a subsequent
`connect` is independent of the cancelled client's state (its first
statement `disconnect()` normalizes the instance), so it is not
blocked by the cancelled connection. -/
theorem C6_cancel_fires_close_only (rc rc' : Nat) (chunks : List String)
    (outcomes : List FetchOutcome) :
    connect rc [FetchOutcome.abort] = ⟨[Cb.onClose], false, 0⟩
    ∧ (connect rc [FetchOutcome.streamAbort chunks]).events
        = Cb.onOpen :: ((chunkDispatches chunks).map (fun p => Cb.dispatch p.1 p.2)
            ++ [Cb.onClose])
    ∧ (connect rc [FetchOutcome.streamAbort chunks]).events.filter isErrorCb = []
    ∧ (connect rc [FetchOutcome.streamAbort chunks]).events.count Cb.onClose = 1
    ∧ (connect rc [FetchOutcome.streamAbort chunks]).attemptPending = false
    ∧ connect rc outcomes = connect rc' outcomes := by
  refine ⟨rfl, by simp [connect, disconnect, connectAttempt], ?_, ?_, rfl, rfl⟩
  · apply List.filter_eq_nil_iff.mpr
    intro a ha
    have hmem : a = Cb.onOpen
        ∨ (∃ p ∈ chunkDispatches chunks, Cb.dispatch p.1 p.2 = a)
        ∨ a = Cb.onClose := by
      simpa [connect, disconnect, connectAttempt, List.mem_cons, List.mem_append,
        List.mem_map] using ha
    rcases hmem with rfl | ⟨p, _, rfl⟩ | rfl <;> simp [isErrorCb]
  · show (Cb.onOpen :: ((chunkDispatches chunks).map (fun p => Cb.dispatch p.1 p.2)
        ++ [Cb.onClose])).count Cb.onClose = 1
    exact count_close_once _ (by simp [List.mem_map])

/-- C3 (counterexample): the ellipsis marker appended by `addMessage`
is the three-character literal `...`, so the title derived from a
51-character first user message holds 53 characters — more than the
claimed 51-character bound. -/
theorem C3_truncated_title_is_53_chars :
    ((getConversation ((addMessage chatS0 "c1" init0 "m1" 7).1) "c1").map
        (fun c => jsLength c.title)) = some 53
    ∧ ¬ (53 ≤ 51) :=
  ⟨by decide, by decide⟩

/-- C3 (amended): while a conversation's title still holds the
default literal, the first user message rewrites it to
`content.slice(0, 50)` plus the three-character `...` marker iff the
content exceeds 50 characters — an at most 53-character value (not
51) — and a conversation whose title differs from the default keeps
its title across any `addMessage`. -/
theorem C3_title_rewritten_once (s : ChatState) (cid : String) (conv : Conversation)
    (init : MessageInit) (fid : String) (now : Nat)
    (hfind : getConversation s cid = some conv) :
    ((getConversation ((addMessage s cid init fid now).1) cid).map Conversation.title)
      = some (if conv.title == defaultTitle && init.role == Role.user
          then deriveTitle init.content else conv.title)
    ∧ jsLength (deriveTitle init.content) ≤ 53
    ∧ (50 < jsLength init.content →
        deriveTitle init.content = jsTake init.content 50 ++ "...")
    ∧ (jsLength init.content ≤ 50 → deriveTitle init.content = init.content) := by
  have hfind' : s.conversations.find? (fun c => c.id == cid) = some conv := hfind
  have hp : (conv.id == cid) = true := by simpa using List.find?_some hfind'
  refine ⟨?_, ?_, ?_, ?_⟩
  · rw [getConversation_addMessage, hfind]
    simp only [Option.map_some']
    unfold applyAddMessage
    rw [if_pos hp]
  · unfold deriveTitle
    by_cases h : 50 < jsLength init.content
    · rw [if_pos h, jsLength_append, jsLength_jsTake]
      have : jsLength "..." = 3 := rfl
      omega
    · rw [if_neg h, jsLength_append, jsLength_jsTake]
      have : jsLength "" = 0 := rfl
      omega
  · intro h
    unfold deriveTitle
    rw [if_pos h]
  · intro h
    unfold deriveTitle
    rw [if_neg (Nat.not_lt.mpr h), String.append_empty]
    show String.mk (init.content.data.take 50) = init.content
    rw [List.take_of_length_le h]

/-- C3 (witness): the amended title rule evaluated on a fresh
conversation receiving a 51-character first user message. -/
theorem C3_title_rewritten_once_witness :
    getConversation chatS0 "c1" = some conv0
    ∧ (((getConversation ((addMessage chatS0 "c1" init0 "m1" 7).1) "c1").map
          Conversation.title)
        = some (if conv0.title == defaultTitle && init0.role == Role.user
            then deriveTitle init0.content else conv0.title)
      ∧ jsLength (deriveTitle init0.content) ≤ 53
      ∧ (50 < jsLength init0.content →
          deriveTitle init0.content = jsTake init0.content 50 ++ "...")
      ∧ (jsLength init0.content ≤ 50 → deriveTitle init0.content = init0.content)) :=
  ⟨by decide, C3_title_rewritten_once chatS0 "c1" conv0 init0 "m1" 7 (by decide)⟩

/-- C4 (counterexample): `addMessage` is declared and implemented
with no return value (`void`); at a concrete call creating message
`m1`, the returned value is `undefined` rather than the created
message's id. -/
theorem C4_addMessage_returns_undefined :
    (addMessage chatS0 "c1" init0 "m1" 7).2 = none
    ∧ (addMessage chatS0 "c1" init0 "m1" 7).2 ≠ some "m1" :=
  ⟨rfl, by decide⟩

/-- C4 (amended): for an existing conversation id, `addMessage`
builds the message from the caller's fields with the generated id and
`Date.now()` timestamp, appends it to that conversation's message
list, sets `updatedAt` to the same clock reading (and applies the
one-time title rule) — but returns no value. -/
theorem C4_addMessage_appends (s : ChatState) (cid : String) (conv : Conversation)
    (init : MessageInit) (fid : String) (now : Nat)
    (hfind : getConversation s cid = some conv) :
    getConversation ((addMessage s cid init fid now).1) cid
      = some { conv with
          messages := conv.messages ++ [mkMessage init fid now],
          updatedAt := now,
          title := if conv.title == defaultTitle && init.role == Role.user
              then deriveTitle init.content else conv.title }
    ∧ (mkMessage init fid now).id = fid
    ∧ (mkMessage init fid now).timestamp = now
    ∧ (addMessage s cid init fid now).2 = none := by
  have hfind' : s.conversations.find? (fun c => c.id == cid) = some conv := hfind
  have hp : (conv.id == cid) = true := by simpa using List.find?_some hfind'
  refine ⟨?_, rfl, rfl, rfl⟩
  rw [getConversation_addMessage, hfind]
  simp only [Option.map_some']
  unfold applyAddMessage
  rw [if_pos hp]

/-- C4 (witness): the amended `addMessage` contract evaluated on a
concrete conversation. -/
theorem C4_addMessage_appends_witness :
    getConversation chatS0 "c1" = some conv0
    ∧ (getConversation ((addMessage chatS0 "c1" init0 "m1" 7).1) "c1"
        = some { conv0 with
            messages := conv0.messages ++ [mkMessage init0 "m1" 7],
            updatedAt := 7,
            title := if conv0.title == defaultTitle && init0.role == Role.user
                then deriveTitle init0.content else conv0.title }
      ∧ (mkMessage init0 "m1" 7).id = "m1"
      ∧ (mkMessage init0 "m1" 7).timestamp = 7
      ∧ (addMessage chatS0 "c1" init0 "m1" 7).2 = none) :=
  ⟨by decide, C4_addMessage_appends chatS0 "c1" conv0 init0 "m1" 7 (by decide)⟩

/-- C5 (counterexample): calling `updateMessage` on an existing
conversation (`c9`, stored `updatedAt = 5`) with a message id that
does not occur in it still rewrites the conversation's `updatedAt`
to the current clock reading, so the state is not left unchanged. -/
theorem C5_missing_message_still_bumps :
    updateMessage chatS1 "c9" "missing" {} 99 ≠ chatS1
    ∧ (getConversation (updateMessage chatS1 "c9" "missing" {} 99) "c9").map
        Conversation.updatedAt = some 99
    ∧ (getConversation chatS1 "c9").map Conversation.updatedAt = some 5 :=
  ⟨by decide, by decide, by decide⟩

/-- C5 (amended): `updateMessage` with an unknown conversation id
leaves the state unchanged; with a known conversation id but a
message id absent from every conversation bearing that id, it leaves
every message list and every other field unchanged but still sets the
matching conversation's `updatedAt` to the current clock reading. -/
theorem C5_updateMessage_unknown_ids (s : ChatState) (cid mid : String)
    (u : MessageUpdate) (now : Nat) :
    (getConversation s cid = none → updateMessage s cid mid u now = s)
    ∧ ((∀ c ∈ s.conversations, c.id = cid →
          c.messages.find? (fun m => m.id == mid) = none) →
        updateMessage s cid mid u now
          = { s with conversations := s.conversations.map (fun c =>
              if c.id == cid then { c with updatedAt := now } else c) }) := by
  constructor
  · intro h
    have h' : s.conversations.find? (fun c => c.id == cid) = none := h
    show { s with conversations := s.conversations.map _ } = s
    rw [map_eq_self_of_fix _ _ (fun c hc => by
      unfold applyUpdateMessage
      rw [if_neg (List.find?_eq_none.mp h' c hc)])]
  · intro h
    show { s with conversations := s.conversations.map _ } = _
    rw [map_congr_mem _ (fun c =>
      if c.id == cid then { c with updatedAt := now } else c) _ (fun c hc => by
        have hpt : applyUpdateMessage cid mid u now c
            = if c.id == cid then { c with updatedAt := now } else c := by
          unfold applyUpdateMessage
          by_cases hceq : (c.id == cid) = true
          · rw [if_pos hceq, if_pos hceq,
              map_eq_self_of_fix _ _ (fun m hm => by
                rw [if_neg (List.find?_eq_none.mp
                  (h c hc (by simpa using hceq)) m hm)])]
          · rw [if_neg hceq, if_neg hceq]
        exact hpt)]

/-- C5 (witness): the amended `updateMessage` no-op law evaluated on
a concrete state, for an unknown conversation id and for a known
conversation with an unknown message id. -/
theorem C5_updateMessage_unknown_ids_witness :
    updateMessage chatS1 "nope" "m0" {} 99 = chatS1
    ∧ updateMessage chatS1 "c9" "missing" {} 99
        = { chatS1 with conversations := chatS1.conversations.map (fun c =>
            if c.id == "c9" then { c with updatedAt := 99 } else c) } :=
  ⟨(C5_updateMessage_unknown_ids chatS1 "nope" "m0" {} 99).1 (by decide),
   (C5_updateMessage_unknown_ids chatS1 "c9" "missing" {} 99).2 (by decide)⟩

/-- C7 (counterexample): `getTotalProgress` applies `Math.round` to
the mean, so one success item (progress 100) plus two pending items
(progress 0) yields 33, not the exact rational `100/(2+1)`. -/
theorem C7_rounded_mean_not_exact :
    getTotalProgress [itemSuccess, itemP, itemP] = 33
    ∧ ((33 : ℚ) ≠ 100 / (2 + 1)) := by
  constructor
  · show jsRound (([itemSuccess, itemP, itemP].map (fun it => it.progress)).sum / 3) = 33
    show jsRound ((100 + (0 + (0 + 0))) / 3) = 33
    unfold jsRound
    norm_num
  · norm_num

/-- C7 (amended): `getTotalProgress` returns 0 on the empty queue and
otherwise `Math.round` of the arithmetic mean of the `progress`
fields (not the exact mean): a queue of items all at the same integer
progress `P` yields `P`, and one success item at 100 plus `N` pending
items at 0 yields `round(100/(N+1))`. -/
theorem C7_total_progress_rounded (items : List IngestItem) (P : ℤ) (N : Nat) :
    getTotalProgress [] = 0
    ∧ (items ≠ [] → (∀ it ∈ items, it.progress = (P : ℚ)) →
        getTotalProgress items = P)
    ∧ getTotalProgress (itemSuccess :: List.replicate N itemP)
        = jsRound (100 / ((N : ℚ) + 1)) := by
  refine ⟨rfl, ?_, ?_⟩
  · intro hne hall
    have hlen : items.length ≠ 0 := by simpa [List.length_eq_zero] using hne
    unfold getTotalProgress
    rw [if_neg hlen]
    have hmap : ∀ x ∈ items.map (fun it => it.progress), x = (P : ℚ) := by
      intro x hx
      rcases List.mem_map.mp hx with ⟨it, hit, rfl⟩
      exact hall it hit
    rw [List.sum_eq_card_nsmul _ _ hmap, List.length_map,
      show (items.length • (P : ℚ)) / (items.length : ℚ) = (P : ℚ) from by
        rw [nsmul_eq_mul, mul_div_cancel_left₀]
        exact Nat.cast_ne_zero.mpr hlen]
    unfold jsRound
    rw [add_comm, Int.floor_add_int]
    norm_num
  · unfold getTotalProgress
    rw [if_neg (by simp)]
    simp only [List.map_cons, List.map_replicate, List.length_cons,
      List.length_replicate, List.sum_cons, List.sum_replicate]
    show jsRound ((100 + N • (0 : ℚ)) / ((N + 1 : Nat) : ℚ)) = jsRound (100 / ((N : ℚ) + 1))
    congr 1
    push_cast
    ring

/-- C7 (witness): the amended progress law evaluated on a two-item
queue at constant progress 100. -/
theorem C7_total_progress_rounded_witness :
    [itemSuccess, itemSuccess] ≠ ([] : List IngestItem)
    ∧ getTotalProgress [itemSuccess, itemSuccess] = 100 :=
  ⟨by decide,
   (C7_total_progress_rounded [itemSuccess, itemSuccess] 100 0).2.1 (by decide)
     (by norm_num [List.forall_mem_cons, itemSuccess])⟩

/-- C8: `retryItem` is a no-op unless the target item's status is
`error`; when it is, the state first passes through the reset —
in which the item is `pending` at progress 0 with `error` cleared —
and only then `uploadItem` runs on that reset state. -/
theorem C8_retry_passes_through_pending (items : List IngestItem)
    (id : String) (item : IngestItem) (o : UploadOutcome) :
    (items.find? (fun it => it.id == id) = none → retryItem items id o = items)
    ∧ (items.find? (fun it => it.id == id) = some item →
        (item.status ≠ IngestStatus.error → retryItem items id o = items)
        ∧ (item.status = IngestStatus.error →
            retryItem items id o = uploadItem (resetToPending items id) id o
            ∧ (resetToPending items id).find? (fun it => it.id == id)
                = some { item with
                    status := IngestStatus.pending, progress := 0,
                    error := none })) := by
  constructor
  · intro h
    unfold retryItem
    rw [h]
  · intro h
    have hp : (item.id == id) = true := by simpa using List.find?_some h
    constructor
    · intro hne
      unfold retryItem
      rw [h]
      simp [bne_iff_ne, hne]
    · intro herr
      refine ⟨?_, ?_⟩
      · unfold retryItem
        rw [h]
        simp [herr]
      · unfold resetToPending
        rw [find?_map_pres _ _ (fun a => by simp only [resetItem_id]) _, h]
        simp [resetItem, hp]

/-- C8 (witness): retry on a pending item is a no-op; retry on a
failed item resets it to `pending`/progress 0 and re-runs
`uploadItem` on the reset state. -/
theorem C8_retry_passes_through_pending_witness :
    retryItem [itemP] "i2" (UploadOutcome.err "x") = [itemP]
    ∧ retryItem [itemErr] "e1" (UploadOutcome.err "x")
        = uploadItem (resetToPending [itemErr] "e1") "e1" (UploadOutcome.err "x")
    ∧ (resetToPending [itemErr] "e1").find? (fun it => it.id == "e1")
        = some { itemErr with
            status := IngestStatus.pending, progress := 0,
            error := none } :=
  ⟨((C8_retry_passes_through_pending [itemP] "i2" itemP
      (UploadOutcome.err "x")).2 (by decide)).1 (by decide),
   (((C8_retry_passes_through_pending [itemErr] "e1" itemErr
      (UploadOutcome.err "x")).2 (by decide)).2 (by decide)).1,
   (((C8_retry_passes_through_pending [itemErr] "e1" itemErr
      (UploadOutcome.err "x")).2 (by decide)).2 (by decide)).2⟩

/-- C9 (counterexample): with no API key configured, the shared
`getHeaders` builder used by every JSON API request does not omit the
key header — it sends the substitute literal `changeme`. -/
theorem C9_changeme_substitute :
    getHeaders "" = [("Content-Type", "application/json"), ("x-api-key", "changeme")]
    ∧ ("x-api-key", "changeme") ∈ getHeaders "" :=
  ⟨rfl, by decide⟩

/-- C9 (amended): a configured key is attached to every request
(JSON API, streaming, multipart ingest); with no key configured the
streaming and ingest requests omit the header, but the JSON API
requests built via `getHeaders` send the substitute value
`changeme`. -/
theorem C9_api_key_header (apiKey : String) (h : apiKey ≠ "") :
    ("x-api-key", apiKey) ∈ getHeaders apiKey
    ∧ ("x-api-key", apiKey) ∈ sseConnectHeaders apiKey
    ∧ ("x-api-key", apiKey) ∈ ingestHeaders apiKey
    ∧ sseConnectHeaders ""
        = [("Accept", "text/event-stream"), ("Cache-Control", "no-cache")]
    ∧ ingestHeaders "" = []
    ∧ ("x-api-key", "changeme") ∈ getHeaders "" := by
  have hb : (apiKey == "") = false := by simpa using h
  refine ⟨?_, ?_, ?_, rfl, rfl, by decide⟩
  · simp [getHeaders, hb]
  · simp [sseConnectHeaders, hb]
  · simp [ingestHeaders, hb]

/-- C9 (witness): the header rule evaluated at the configured key
`secret`. -/
theorem C9_api_key_header_witness :
    ("x-api-key", "secret") ∈ getHeaders "secret"
    ∧ ("x-api-key", "secret") ∈ sseConnectHeaders "secret"
    ∧ ("x-api-key", "secret") ∈ ingestHeaders "secret"
    ∧ sseConnectHeaders ""
        = [("Accept", "text/event-stream"), ("Cache-Control", "no-cache")]
    ∧ ingestHeaders "" = []
    ∧ ("x-api-key", "changeme") ∈ getHeaders "" :=
  C9_api_key_header "secret" (by decide)

/-- C10: for a pending item of kind `file`, `uploadItem` terminates
in `success` at progress 100 with the synthesized result naming the
file, for every network outcome — the file branch never consults the
backend and cannot reach `error`; only the url branch inspects the
network outcome. -/
theorem C10_file_upload_cannot_fail (items : List IngestItem) (id : String)
    (item : IngestItem) (o : UploadOutcome)
    (hfind : items.find? (fun it => it.id == id) = some item)
    (hpend : item.status = IngestStatus.pending)
    (hfile : item.type = IngestKind.file) :
    (uploadItem items id o).find? (fun it => it.id == id)
      = some { item with
          status := IngestStatus.success, progress := 100,
          result := some (fileUploadResult item.name) }
    ∧ (∀ o' : UploadOutcome, uploadItem items id o' = uploadItem items id o) := by
  have hp : (item.id == id) = true := by simpa using List.find?_some hfind
  have hbranch : ∀ o' : UploadOutcome,
      uploadItem items id o'
        = (items.map (markUploading id)).map
            (markSuccess id (fileUploadResult item.name)) := by
    intro o'
    unfold uploadItem
    rw [hfind]
    simp [hpend, hfile]
  constructor
  · rw [hbranch o,
      find?_map_pres _ _ (fun a => by simp only [markSuccess_id]) _,
      find?_map_pres _ _ (fun a => by simp only [markUploading_id]) _,
      hfind]
    simp [markUploading, markSuccess, hp]
  · intro o'
    rw [hbranch o', hbranch o]

/-- C10 (witness): a pending file item uploaded against a rejecting
network still terminates in `success` at progress 100 with the
synthesized result. -/
theorem C10_file_upload_cannot_fail_witness :
    (uploadItem [itemFile] "f1" (UploadOutcome.err "down")).find?
        (fun it => it.id == "f1")
      = some { itemFile with
          status := IngestStatus.success, progress := 100,
          result := some (fileUploadResult itemFile.name) }
    ∧ (∀ o' : UploadOutcome,
        uploadItem [itemFile] "f1" o'
          = uploadItem [itemFile] "f1" (UploadOutcome.err "down")) :=
  C10_file_upload_cannot_fail [itemFile] "f1" itemFile (UploadOutcome.err "down")
    (by decide) (by decide) (by decide)

end Spec2Proof
